import Mathlib

/-!
Shallow embedding of the TIP_MDS clinic-management workflow core:
appointment lifecycle, record-update-request workflow, notification/email
dispatch with retry bookkeeping, document numbering, and analytics
aggregation.  Times and dates are modelled as natural numbers (seconds /
abstract ordinals); user references are natural-number identifiers.
-/

namespace TipMds

/-- Appointment status, from `Appointment.STATUS_CHOICES` in
`appointments/models.py`. -/
inductive AppointmentStatus
  | pending
  | approved
  | completed
  | cancelled
  | noShow
  deriving DecidableEq, Repr

/-- The fields of `Appointment` (appointments/models.py) that the lifecycle
methods read or write.  `Nat` stands for a point in time; user references
are ids. -/
structure Appointment where
  ticketNumber : String
  preferredDate : Nat
  status : AppointmentStatus
  doctor : Option Nat
  actualDatetime : Option Nat
  approvedBy : Option Nat
  approvedAt : Option Nat
  completedAt : Option Nat
  cancelledAt : Option Nat
  cancellationReason : String
  cancelledBy : Option Nat
  deriving DecidableEq, Repr

/-- `Appointment.approve` (appointments/models.py): unconditionally sets
status to approved, records the actor and the current time, and assigns
doctor / actual_datetime only when provided (Python truthiness on the
optional arguments). -/
def Appointment.approve (a : Appointment) (approvedByUser : Nat)
    (doctor : Option Nat) (actualDatetime : Option Nat) (now : Nat) :
    Appointment :=
  let a1 := { a with status := .approved, approvedBy := some approvedByUser,
                     approvedAt := some now }
  let a2 := match doctor with
    | some d => { a1 with doctor := some d }
    | none => a1
  match actualDatetime with
  | some t => { a2 with actualDatetime := some t }
  | none => a2

/-- `Appointment.complete` (appointments/models.py). -/
def Appointment.complete (a : Appointment) (now : Nat) : Appointment :=
  { a with status := .completed, completedAt := some now }

/-- `Appointment.cancel` (appointments/models.py): unconditionally sets
status to cancelled, records time and reason, and records the cancelling
user only when one is passed. -/
def Appointment.cancel (a : Appointment) (reason : String)
    (cancelledBy : Option Nat) (now : Nat) : Appointment :=
  let a1 := { a with status := .cancelled, cancelledAt := some now,
                     cancellationReason := reason }
  match cancelledBy with
  | some u => { a1 with cancelledBy := some u }
  | none => a1

/-- `AppointmentApprovalForm.clean_actual_datetime`
(appointments/forms.py): a scheduled datetime in the past is a validation
error; everything else passes through. -/
def clean_actual_datetime (dt : Option Nat) (now : Nat) :
    Except String (Option Nat) :=
  match dt with
  | some t =>
      if t < now then Except.error "Scheduled time must be in the future."
      else Except.ok (some t)
  | none => Except.ok none

/-- The doctor-side `approve_appointment` view (doctors/views.py): form
validation on the scheduled datetime, then `Appointment.approve` with no
check of the appointment's current status. -/
def approve_appointment (a : Appointment) (user : Nat) (doctor : Option Nat)
    (actualDatetime : Option Nat) (now : Nat) : Except String Appointment :=
  match clean_actual_datetime actualDatetime now with
  | Except.error e => Except.error e
  | Except.ok dt => Except.ok (a.approve user doctor dt now)

/-- The admin bulk action `approve_appointments`
(appointments/admin.py): iterates over the selection restricted to
`status='pending'` and approves those; other appointments are untouched. -/
def approve_appointments (apts : List Appointment) (user : Nat) (now : Nat) :
    List Appointment :=
  apts.map (fun a =>
    if a.status = .pending then a.approve user none none now else a)

/-- The doctor-side `cancel_appointment` view (doctors/views.py): rejects
unless the status is pending or approved, otherwise cancels recording the
doctor as the cancelling user, then attempts the cancellation notification
inside `try/except: pass` — whatever the dispatch outcome, the view
proceeds with the already-persisted cancellation. -/
def cancel_appointment_doctor (a : Appointment) (reason : String)
    (user : Nat) (now : Nat)
    (notify : Appointment → Except String Unit) : Except String Appointment :=
  if a.status = .pending ∨ a.status = .approved then
    let cancelled := a.cancel reason (some user) now
    match notify cancelled with
    | Except.ok _ => Except.ok cancelled
    | Except.error _ => Except.ok cancelled
  else
    Except.error "This appointment cannot be cancelled."

/-- The student-side `cancel_appointment` view (students/views.py): same
status guard; calls `Appointment.cancel` without a cancelling user. -/
def cancel_appointment_student (a : Appointment) (reason : String)
    (now : Nat) : Except String Appointment :=
  if a.status = .pending ∨ a.status = .approved then
    Except.ok (a.cancel reason none now)
  else
    Except.error "This appointment cannot be cancelled."

/-- The profile fields offered by `RecordUpdateRequestForm.field_name`
(students/forms.py) — the closed set of attributes an update request can
target. -/
inductive ProfileField
  | contact_number
  | address
  | emergency_contact_name
  | emergency_contact_number
  | height_cm
  | weight_kg
  | allergies
  | current_medications
  | medical_history
  | dental_history
  deriving DecidableEq, Repr

/-- `StudentProfile` (students/models.py), restricted to the updatable
fields plus representative non-updatable ones.  Values are kept as raw
strings because `RecordUpdateRequest.approve` writes `new_value` verbatim
with `setattr`, with no type coercion. -/
structure StudentProfile where
  student_id : String
  program : String
  year_level : String
  blood_type : String
  contact_number : String
  address : String
  emergency_contact_name : String
  emergency_contact_number : String
  height_cm : String
  weight_kg : String
  allergies : String
  current_medications : String
  medical_history : String
  dental_history : String
  deriving DecidableEq, Repr

/-- `getattr(profile, field_name)` for the updatable fields. -/
def StudentProfile.getField (p : StudentProfile) : ProfileField → String
  | .contact_number => p.contact_number
  | .address => p.address
  | .emergency_contact_name => p.emergency_contact_name
  | .emergency_contact_number => p.emergency_contact_number
  | .height_cm => p.height_cm
  | .weight_kg => p.weight_kg
  | .allergies => p.allergies
  | .current_medications => p.current_medications
  | .medical_history => p.medical_history
  | .dental_history => p.dental_history

/-- `setattr(profile, field_name, value)` for the updatable fields. -/
def StudentProfile.setField (p : StudentProfile) (f : ProfileField)
    (v : String) : StudentProfile :=
  match f with
  | .contact_number => { p with contact_number := v }
  | .address => { p with address := v }
  | .emergency_contact_name => { p with emergency_contact_name := v }
  | .emergency_contact_number => { p with emergency_contact_number := v }
  | .height_cm => { p with height_cm := v }
  | .weight_kg => { p with weight_kg := v }
  | .allergies => { p with allergies := v }
  | .current_medications => { p with current_medications := v }
  | .medical_history => { p with medical_history := v }
  | .dental_history => { p with dental_history := v }

/-- Update-request status, from `RecordUpdateRequest.STATUS_CHOICES`
(students/models.py). -/
inductive RequestStatus
  | pending
  | approved
  | declined
  | expired
  deriving DecidableEq, Repr

/-- One day of `timedelta`, in seconds. -/
def secondsPerDay : Nat := 86400

/-- `RecordUpdateRequest` (students/models.py).  `created_at` is the
`auto_now_add` timestamp of the first save; `expiry_date` is a non-null
column set by `save()` on creation. -/
structure RecordUpdateRequest where
  field_name : ProfileField
  old_value : String
  new_value : String
  reason : String
  status : RequestStatus
  reviewed_by : Option Nat
  review_notes : Option String
  reviewed_at : Option Nat
  created_at : Nat
  expiry_date : Nat
  deriving DecidableEq, Repr

/-- The expiry-assignment step of `RecordUpdateRequest.save`
(students/models.py): `if not self.expiry_date: self.expiry_date =
timezone.now() + timedelta(days=7)`.  `none` is the unsaved state. -/
def saveExpiry (expiry0 : Option Nat) (now : Nat) : Nat :=
  match expiry0 with
  | none => now + 7 * secondsPerDay
  | some e => e

/-- Creation of a `RecordUpdateRequest` followed by its first save
(students/views.py `request_record_update` + `RecordUpdateRequest.save`):
old_value snapshots the profile's current field value, status defaults to
pending, `created_at` is set by `auto_now_add`, and the first save assigns
`expiry_date`. -/
def mkUpdateRequest (profile : StudentProfile) (f : ProfileField)
    (newValue reason : String) (now : Nat) : RecordUpdateRequest :=
  { field_name := f
    old_value := profile.getField f
    new_value := newValue
    reason := reason
    status := .pending
    reviewed_by := none
    review_notes := none
    reviewed_at := none
    created_at := now
    expiry_date := saveExpiry none now }

/-- `RecordUpdateRequest.is_expired` (students/models.py):
`timezone.now() > self.expiry_date and self.status == 'pending'`. -/
def RecordUpdateRequest.is_expired (r : RecordUpdateRequest) (now : Nat) :
    Bool :=
  decide (r.expiry_date < now) && decide (r.status = .pending)

/-- `RecordUpdateRequest.check_and_mark_expired` (students/models.py):
transitions pending→expired when `is_expired()`, returning whether a
transition occurred; the embedded `save()` leaves the already-set
`expiry_date` alone. -/
def RecordUpdateRequest.check_and_mark_expired (r : RecordUpdateRequest)
    (now : Nat) : Bool × RecordUpdateRequest :=
  if r.is_expired now then
    (true, { r with status := .expired,
                    expiry_date := saveExpiry (some r.expiry_date) now })
  else
    (false, r)

/-- `RecordUpdateRequest.approve` (students/models.py): records reviewer
and time, sets status approved, and when `apply_changes` writes
`new_value` onto the named attribute of the student profile; both objects
are then saved (the request's save leaves the set `expiry_date` alone). -/
def RecordUpdateRequest.approve (r : RecordUpdateRequest)
    (reviewedByUser : Nat) (applyChanges : Bool) (profile : StudentProfile)
    (now : Nat) : RecordUpdateRequest × StudentProfile :=
  let r1 := { r with status := .approved,
                     reviewed_by := some reviewedByUser,
                     reviewed_at := some now,
                     expiry_date := saveExpiry (some r.expiry_date) now }
  let profile1 :=
    if applyChanges then profile.setField r.field_name r.new_value
    else profile
  (r1, profile1)

/-- `RecordUpdateRequest.decline` (students/models.py). -/
def RecordUpdateRequest.decline (r : RecordUpdateRequest)
    (reviewedByUser : Nat) (notes : String) (now : Nat) :
    RecordUpdateRequest :=
  { r with status := .declined,
           reviewed_by := some reviewedByUser,
           reviewed_at := some now,
           review_notes := some notes,
           expiry_date := saveExpiry (some r.expiry_date) now }

/-- Email status, from `EmailLog.STATUS_CHOICES`
(notifications/models.py). -/
inductive EmailStatus
  | pending
  | sent
  | failed
  | bounced
  deriving DecidableEq, Repr

/-- `EmailLog` (notifications/models.py): delivery bookkeeping for one
email row; `retry_count` defaults to 0 and `max_retries` to 3. -/
structure EmailLog where
  recipient_email : String
  subject : String
  body : String
  status : EmailStatus
  error_message : Option String
  sent_at : Option Nat
  retry_count : Nat
  max_retries : Nat
  deriving DecidableEq, Repr

/-- `EmailLog.can_retry` (notifications/models.py):
`status == 'failed' and retry_count < max_retries`. -/
def EmailLog.can_retry (l : EmailLog) : Bool :=
  decide (l.status = .failed) && decide (l.retry_count < l.max_retries)

/-- The notification fields `send_notification_email` reads and writes
(notifications/models.py `Notification`). -/
structure Notification where
  recipient_email : String
  title : String
  message : String
  email_sent : Bool
  email_sent_at : Option Nat
  deriving DecidableEq, Repr

/-- `send_notification_email` (notifications/services.py): creates a fresh
pending `EmailLog` row for this attempt, hands the message to the mail
transport (`mailErr = none` models success, `some e` a raised transport
error), and on success marks notification and the new log sent, on failure
marks that same new log failed, records the error and bumps its
`retry_count` (from its initial 0).  Returns the success flag, the
notification, and the email-log table. -/
def send_notification_email (n : Notification) (logs : List EmailLog)
    (mailErr : Option String) (now : Nat) :
    Bool × Notification × List EmailLog :=
  let emailLog : EmailLog :=
    { recipient_email := n.recipient_email
      subject := n.title
      body := n.message
      status := .pending
      error_message := none
      sent_at := none
      retry_count := 0
      max_retries := 3 }
  match mailErr with
  | none =>
      (true,
       { n with email_sent := true, email_sent_at := some now },
       logs ++ [{ emailLog with status := .sent, sent_at := some now }])
  | some e =>
      (false, n,
       logs ++ [{ emailLog with status := .failed,
                                error_message := some e,
                                retry_count := emailLog.retry_count + 1 }])

/-- Medical-record status, from `MedicalRecord.STATUS_CHOICES`
(students/models.py). -/
inductive RecordStatus
  | pending
  | approved
  | declined
  deriving DecidableEq, Repr

/-- The fields of `MedicalRecord` (students/models.py) that the analytics
queries read. -/
structure MedicalRecord where
  record_type : String
  status : RecordStatus
  diagnosis : Option String
  visit_date : Nat
  deriving DecidableEq, Repr

/-- The optional date-window filter of `get_top_morbidities`
(`visit_date__gte` / `visit_date__lte`). -/
def inWindow (dateFrom dateTo : Option Nat) (d : Nat) : Bool :=
  (match dateFrom with | some f => decide (f ≤ d) | none => true) &&
  (match dateTo with | some t => decide (d ≤ t) | none => true)

/-- The queryset filter of `get_top_morbidities`
(analytics/services.py): approved status, matching record type, diagnosis
neither null nor empty, visit date in the window. -/
def morbidityMatch (recordType : String) (dateFrom dateTo : Option Nat)
    (r : MedicalRecord) : Bool :=
  decide (r.status = .approved) && decide (r.record_type = recordType) &&
  (match r.diagnosis with | some d => decide (d ≠ "") | none => false) &&
  inWindow dateFrom dateTo r.visit_date

/-- Distinct diagnosis values of the grouped queryset, in first-occurrence
order. -/
def dedupFirst (seen : List String) : List String → List String
  | [] => []
  | d :: ds =>
      if d ∈ seen then dedupFirst seen ds
      else d :: dedupFirst (d :: seen) ds

/-- Insert one `(diagnosis, count)` group into a list sorted by descending
count, embedding the queryset's `order_by('-total')` (tie order among
equal counts is not fixed by the source). -/
def insertByCountDesc (x : String × Nat) :
    List (String × Nat) → List (String × Nat)
  | [] => [x]
  | y :: ys =>
      if y.2 < x.2 then x :: y :: ys else y :: insertByCountDesc x ys

/-- Sort the groups by descending count. -/
def sortByCountDesc (groups : List (String × Nat)) : List (String × Nat) :=
  groups.foldr insertByCountDesc []

/-- Python's `round(x, 2)` on the exact rational value (the source rounds
a float; on values whose scaled fraction is not exactly one half the two
agree, and all values in this development are of that kind). -/
def round2 (q : ℚ) : ℚ := (round (q * 100) : ℤ) / 100

/-- One entry of the list returned by `get_top_morbidities`. -/
structure MorbidityItem where
  diagnosis : String
  count : Nat
  percentage : ℚ
  deriving DecidableEq, Repr

/-- `get_top_morbidities` (analytics/services.py): filter approved records
of the given type with non-empty diagnosis inside the window, group by
diagnosis with counts, order by descending count, slice to `limit`, and
compute each percentage against `total_cases`, the sum of the counts of
the sliced (top-N) groups only. -/
def get_top_morbidities (recordType : String) (limit : Nat)
    (dateFrom dateTo : Option Nat) (records : List MedicalRecord) :
    List MorbidityItem :=
  let filtered := records.filter (morbidityMatch recordType dateFrom dateTo)
  let diags := filtered.filterMap (·.diagnosis)
  let groups := (dedupFirst [] diags).map (fun d => (d, diags.count d))
  let top := (sortByCountDesc groups).take limit
  let totalCases : Nat := (top.map (·.2)).sum
  top.map (fun g =>
    { diagnosis := g.1
      count := g.2
      percentage :=
        round2 (if 0 < totalCases then (g.2 : ℚ) / (totalCases : ℚ) * 100
                else 0) })

/-- Modelled from the spec: the percentage of one diagnosis relative to
the window total of approved records, the denominator the spec's
"percentage of window total" describes.  Used only to compare the spec's
words with what `get_top_morbidities` computes. -/
def spec_percentage_of_window_total (recordType : String)
    (dateFrom dateTo : Option Nat) (records : List MedicalRecord)
    (count : Nat) : ℚ :=
  let windowTotal :=
    (records.filter (morbidityMatch recordType dateFrom dateTo)).length
  round2 (if 0 < windowTotal then (count : ℚ) / (windowTotal : ℚ) * 100
          else 0)

/-- The numeric payload computed by `get_consultation_statistics`
(analytics/services.py). -/
structure StatsData where
  total_consultations : Nat
  medical_consultations : Nat
  dental_consultations : Nat
  total_appointments : Nat
  completed_appointments : Nat
  cancelled_appointments : Nat
  no_show_appointments : Nat
  certificates_issued : Nat
  prescriptions_issued : Nat
  new_students_registered : Nat
  deriving DecidableEq, Repr

/-- The persisted tables `get_consultation_statistics` queries:
medical records, appointments, certificate / prescription issue dates, and
student-profile creation timestamps. -/
structure AnalyticsCtx where
  medicalRecords : List MedicalRecord
  appointments : List Appointment
  certificateIssueDates : List Nat
  prescriptionIssueDates : List Nat
  studentCreatedAts : List Nat
  deriving Repr

/-- `get_consultation_statistics` (analytics/services.py): counts approved
medical and dental records by visit date, appointments by preferred date
and status, certificates / prescriptions by issue date, and new student
registrations, all within the closed window. -/
def get_consultation_statistics (dateFrom dateTo : Nat)
    (ctx : AnalyticsCtx) : StatsData :=
  let between := fun (d : Nat) => decide (dateFrom ≤ d) && decide (d ≤ dateTo)
  let medicalCount := ctx.medicalRecords.countP (fun r =>
    between r.visit_date && decide (r.record_type = "medical") &&
    decide (r.status = .approved))
  let dentalCount := ctx.medicalRecords.countP (fun r =>
    between r.visit_date && decide (r.record_type = "dental") &&
    decide (r.status = .approved))
  let appts := ctx.appointments.filter (fun a => between a.preferredDate)
  { total_consultations := medicalCount + dentalCount
    medical_consultations := medicalCount
    dental_consultations := dentalCount
    total_appointments := appts.length
    completed_appointments := appts.countP (fun a => decide (a.status = .completed))
    cancelled_appointments := appts.countP (fun a => decide (a.status = .cancelled))
    no_show_appointments := appts.countP (fun a => decide (a.status = .noShow))
    certificates_issued := ctx.certificateIssueDates.countP between
    prescriptions_issued := ctx.prescriptionIssueDates.countP between
    new_students_registered := ctx.studentCreatedAts.countP between }

/-- One row of `ConsultationStatistic` (analytics/models.py); the numeric
columns are grouped in `data`.  `unique_together = [[period_type,
period_start]]`. -/
structure ConsultationStatistic where
  period_type : String
  period_start : Nat
  period_end : Nat
  data : StatsData
  deriving DecidableEq, Repr

/-- The `unique_together` key of `ConsultationStatistic`. -/
def consultationKeyMatch (ptype : String) (pstart : Nat)
    (s : ConsultationStatistic) : Bool :=
  decide (s.period_type = ptype) && decide (s.period_start = pstart)

/-- `ConsultationStatistic.objects.update_or_create` keyed by
`(period_type, period_start)` with defaults `period_end` and the computed
stats: update the matching row in place when one exists, otherwise append
a new row.  Returns the affected row, the `created` flag, and the
table. -/
def consultationUpdateOrCreate (table : List ConsultationStatistic)
    (ptype : String) (pstart pend : Nat) (d : StatsData) :
    ConsultationStatistic × Bool × List ConsultationStatistic :=
  if table.any (consultationKeyMatch ptype pstart) then
    let row : ConsultationStatistic :=
      { period_type := ptype, period_start := pstart, period_end := pend,
        data := d }
    (row, false,
     table.map (fun s =>
       if consultationKeyMatch ptype pstart s then
         { s with period_end := pend, data := d }
       else s))
  else
    let row : ConsultationStatistic :=
      { period_type := ptype, period_start := pstart, period_end := pend,
        data := d }
    (row, true, table ++ [row])

/-- `generate_consultation_statistics` (analytics/services.py) on resolved
periods: the source first fills a missing `period_start` / `period_end`
with calendar defaults (first of the current month, end of month or
today); here the call is embedded after that resolution, with the periods
explicit.  Computes the window tallies and upserts the row keyed by
`(period_type, period_start)`. -/
def generate_consultation_statistics (ptype : String) (pstart pend : Nat)
    (ctx : AnalyticsCtx) (table : List ConsultationStatistic) :
    ConsultationStatistic × List ConsultationStatistic :=
  let sd := get_consultation_statistics pstart pend ctx
  let r := consultationUpdateOrCreate table ptype pstart pend sd
  (r.1, r.2.2)

/-- `string.ascii_uppercase + string.digits`, the alphabet
`random.choices` draws from in the three number generators. -/
def alphabetUD : List Char := "ABCDEFGHIJKLMNOPQRSTUVWXYZ0123456789".toList

/-- `''.join(random.choices(string.ascii_uppercase + string.digits, k))`:
the random source is modelled as a list of natural-number draws, each
reduced modulo the 36-character alphabet; `k` is the length of the
list. -/
def randomChoices (seed : List Nat) : String :=
  String.mk (seed.map (fun s => alphabetUD.getD (s % 36) 'A'))

/-- One candidate number `f"{pfx}-{year}-{random_part}"`. -/
def numberCandidate (pfx : String) (year : Nat) (seed : List Nat) : String :=
  pfx ++ "-" ++ toString year ++ "-" ++ randomChoices seed

/-- The shared generate-then-retry-while-collision loop of
`generate_ticket_number`, `generate_certificate_number` and
`generate_prescription_number`: draw a candidate, and while it collides
with the persisted set draw again.  The unbounded Python loop is embedded
over the (finite) stream of random draws; `none` means the stream was
exhausted without finding a fresh value. -/
def generateUniqueNumber (pfx : String) (year : Nat)
    (existing : List String) : List (List Nat) → Option String
  | [] => none
  | seed :: rest =>
      let t := numberCandidate pfx year seed
      if t ∈ existing then generateUniqueNumber pfx year existing rest
      else some t

/-- `Appointment.generate_ticket_number` (appointments/models.py):
`APT-{year}-{random 6}` retried against the persisted ticket numbers; each
seed in the stream has length 6 at the call site. -/
def Appointment.generate_ticket_number (year : Nat) (existing : List String)
    (seeds : List (List Nat)) : Option String :=
  generateUniqueNumber "APT" year existing seeds

/-- `IssuedCertificate.generate_certificate_number`
(templates_docs/models.py): `CERT-{year}-{random 8}` retried against the
persisted certificate numbers; each seed has length 8 at the call site. -/
def generate_certificate_number (year : Nat) (existing : List String)
    (seeds : List (List Nat)) : Option String :=
  generateUniqueNumber "CERT" year existing seeds

/-- `Prescription.generate_prescription_number`
(templates_docs/models.py): `RX-{year}-{random 6}` retried against the
persisted prescription numbers; each seed has length 6 at the call
site. -/
def generate_prescription_number (year : Nat) (existing : List String)
    (seeds : List (List Nat)) : Option String :=
  generateUniqueNumber "RX" year existing seeds

/-- An uppercase letter or a digit. -/
def isUpperAlnum (c : Char) : Bool :=
  (decide ('A' ≤ c) && decide (c ≤ 'Z')) ||
  (decide ('0' ≤ c) && decide (c ≤ '9'))

/-- The number format `PFX-YYYY-` followed by `k` uppercase-alphanumeric
characters. -/
def numberFormat (pfx : String) (year k : Nat) (t : String) : Prop :=
  ∃ part : String,
    t = pfx ++ "-" ++ toString year ++ "-" ++ part ∧
    part.length = k ∧ part.toList.all isUpperAlnum = true

/-- A freshly booked appointment (status pending, nothing recorded). -/
def apt0 : Appointment :=
  { ticketNumber := "APT-2025-AAAAAA"
    preferredDate := 100
    status := .pending
    doctor := none
    actualDatetime := none
    approvedBy := none
    approvedAt := none
    completedAt := none
    cancelledAt := none
    cancellationReason := ""
    cancelledBy := none }

/-- A sample student profile. -/
def profile0 : StudentProfile :=
  { student_id := "2023-00142"
    program := "CS"
    year_level := "2"
    blood_type := "O+"
    contact_number := "+639170000000"
    address := "Manila"
    emergency_contact_name := "Parent"
    emergency_contact_number := "+639171111111"
    height_cm := "170.00"
    weight_kg := "60.00"
    allergies := ""
    current_medications := ""
    medical_history := ""
    dental_history := "" }

/-- A pending update request for `contact_number`, created at time 1000. -/
def req0 : RecordUpdateRequest :=
  mkUpdateRequest profile0 .contact_number "+639171234567" "typo fix" 1000

/-- A sample notification. -/
def notif0 : Notification :=
  { recipient_email := "student@tip.edu.ph"
    title := "Appointment Approved"
    message := "Your appointment has been approved."
    email_sent := false
    email_sent_at := none }

/-- State after three consecutive failed email sends for `notif0`,
starting from an empty email-log table. -/
def threeFailedSends : Bool × Notification × List EmailLog :=
  let s1 := send_notification_email notif0 [] (some "SMTP error") 1
  let s2 := send_notification_email s1.2.1 s1.2.2 (some "SMTP error") 2
  send_notification_email s2.2.1 s2.2.2 (some "SMTP error") 3

/-- Five approved in-window medical records: Flu three times, Cold once,
Ache once. -/
def morbidityRecs : List MedicalRecord :=
  [ { record_type := "medical", status := .approved, diagnosis := some "Flu", visit_date := 5 }
  , { record_type := "medical", status := .approved, diagnosis := some "Flu", visit_date := 6 }
  , { record_type := "medical", status := .approved, diagnosis := some "Flu", visit_date := 7 }
  , { record_type := "medical", status := .approved, diagnosis := some "Cold", visit_date := 6 }
  , { record_type := "medical", status := .approved, diagnosis := some "Ache", visit_date := 6 } ]

/-- A small analytics context: one approved medical record in the
window. -/
def ctx1 : AnalyticsCtx :=
  { medicalRecords :=
      [ { record_type := "medical", status := .approved,
          diagnosis := some "Flu", visit_date := 3 } ]
    appointments := []
    certificateIssueDates := []
    prescriptionIssueDates := []
    studentCreatedAts := [] }

/-- A second analytics context with different counts. -/
def ctx2 : AnalyticsCtx :=
  { medicalRecords :=
      [ { record_type := "medical", status := .approved,
          diagnosis := some "Flu", visit_date := 3 }
      , { record_type := "dental", status := .approved,
          diagnosis := some "Caries", visit_date := 4 } ]
    appointments := [apt0]
    certificateIssueDates := [5]
    prescriptionIssueDates := []
    studentCreatedAts := [2, 9] }

/-! ## Theorems -/

theorem getField_setField_same (p : StudentProfile) (f : ProfileField)
    (v : String) : (p.setField f v).getField f = v := by
  cases f <;> rfl

theorem getField_setField_other (p : StudentProfile) (f g : ProfileField)
    (v : String) (h : g ≠ f) :
    (p.setField f v).getField g = p.getField g := by
  cases f <;> cases g <;>
    simp_all [StudentProfile.setField, StudentProfile.getField]

/-- C10: a `RecordUpdateRequest`'s `expiry_date` is assigned exactly once,
at the first save (7 days after creation), and neither `approve`,
`decline`, `check_and_mark_expired`, nor a later save moves it. -/
theorem update_request_expiry_assigned_once
    (p : StudentProfile) (f : ProfileField) (nv rsn : String)
    (now₀ : Nat) (r : RecordUpdateRequest) (user now : Nat)
    (applyC : Bool) (notes : String) (e : Nat) :
    (mkUpdateRequest p f nv rsn now₀).expiry_date
        = now₀ + 7 * secondsPerDay ∧
    (mkUpdateRequest p f nv rsn now₀).created_at = now₀ ∧
    saveExpiry (some e) now = e ∧
    (r.approve user applyC p now).1.expiry_date = r.expiry_date ∧
    (r.decline user notes now).expiry_date = r.expiry_date ∧
    (r.check_and_mark_expired now).2.expiry_date = r.expiry_date := by
  refine ⟨rfl, rfl, rfl, rfl, rfl, ?_⟩
  unfold RecordUpdateRequest.check_and_mark_expired
  split <;> rfl

/-- C4: `is_expired()` is true iff the current time is strictly past the
stored `expiry_date` and the status is still pending; for a freshly
created request this deadline is `created_at + 7 days`. -/
theorem is_expired_iff_past_deadline_and_pending
    (r : RecordUpdateRequest) (now : Nat) (p : StudentProfile)
    (f : ProfileField) (nv rsn : String) (t0 : Nat) :
    (r.is_expired now = true ↔
        r.expiry_date < now ∧ r.status = .pending) ∧
    (mkUpdateRequest p f nv rsn t0).expiry_date
        = (mkUpdateRequest p f nv rsn t0).created_at + 7 * secondsPerDay ∧
    ((mkUpdateRequest p f nv rsn t0).is_expired now = true ↔
        t0 + 7 * secondsPerDay < now) := by
  refine ⟨?_, rfl, ?_⟩ <;>
    simp [RecordUpdateRequest.is_expired, mkUpdateRequest, saveExpiry]

/-- C3: the doctor-side and student-side cancellation views succeed
exactly when the status is pending or approved, producing the cancelled
state; from completed, cancelled or no-show they return a rejection and
perform no transition. -/
theorem cancel_valid_iff_pending_or_approved
    (a : Appointment) (reason : String) (user now : Nat)
    (notify : Appointment → Except String Unit) :
    (cancel_appointment_doctor a reason user now notify =
        if a.status = .pending ∨ a.status = .approved then
          Except.ok (a.cancel reason (some user) now)
        else Except.error "This appointment cannot be cancelled.") ∧
    (cancel_appointment_student a reason now =
        if a.status = .pending ∨ a.status = .approved then
          Except.ok (a.cancel reason none now)
        else Except.error "This appointment cannot be cancelled.") ∧
    (a.cancel reason (some user) now).status = .cancelled ∧
    (a.cancel reason none now).status = .cancelled := by
  refine ⟨?_, rfl, rfl, rfl⟩
  unfold cancel_appointment_doctor
  split
  · cases hno : notify (a.cancel reason (some user) now) <;> simp [hno]
  · rfl

/-- C5: once the status guard passes, the cancellation transition is
complete and identical whatever the notification dispatch returns — a
raised notification error is swallowed and never undoes the
cancellation. -/
theorem cancellation_survives_notification_failure
    (a : Appointment) (reason : String) (user now : Nat)
    (notify : Appointment → Except String Unit)
    (h : a.status = .pending ∨ a.status = .approved) :
    cancel_appointment_doctor a reason user now notify =
        Except.ok (a.cancel reason (some user) now) ∧
    (a.cancel reason (some user) now).status = .cancelled ∧
    (a.cancel reason (some user) now).cancelledAt = some now ∧
    (a.cancel reason (some user) now).cancellationReason = reason ∧
    (a.cancel reason (some user) now).cancelledBy = some user := by
  refine ⟨?_, rfl, rfl, rfl, rfl⟩
  unfold cancel_appointment_doctor
  rw [if_pos h]
  cases hno : notify (a.cancel reason (some user) now) <;> simp [hno]

/-- C5 witness: a cancellation of the concrete pending appointment `apt0`
completes even when the notification dispatch raises. -/
theorem cancellation_survives_notification_failure_witness :
    cancel_appointment_doctor apt0 "clinic closed" 3 5
        (fun _ => Except.error "SMTP down") =
      Except.ok (apt0.cancel "clinic closed" (some 3) 5) ∧
    (apt0.cancel "clinic closed" (some 3) 5).status = .cancelled ∧
    (apt0.cancel "clinic closed" (some 3) 5).cancelledAt = some 5 ∧
    (apt0.cancel "clinic closed" (some 3) 5).cancellationReason
        = "clinic closed" ∧
    (apt0.cancel "clinic closed" (some 3) 5).cancelledBy = some 3 :=
  cancellation_survives_notification_failure apt0 "clinic closed" 3 5
    (fun _ => Except.error "SMTP down") (Or.inl rfl)

/-- C1 counterexample: `approve` is not guarded by status — approving an
already-approved appointment, and even a completed one, succeeds through
the doctor view (it is not rejected) and sets status approved again. -/
theorem approve_second_call_not_rejected_cex :
    (Appointment.approve apt0 5 none none 50).status = .approved ∧
    approve_appointment (Appointment.approve apt0 5 none none 50)
        7 none none 60 =
      Except.ok
        ((Appointment.approve apt0 5 none none 50).approve 7 none none 60) ∧
    ((Appointment.approve apt0 5 none none 50).approve
        7 none none 60).status = .approved ∧
    approve_appointment (Appointment.complete apt0 70) 8 none none 60 =
      Except.ok ((Appointment.complete apt0 70).approve 8 none none 60) ∧
    ((Appointment.complete apt0 70).approve 8 none none 60).status
        = .approved :=
  ⟨rfl, rfl, rfl, rfl, rfl⟩

/-- C1 amended: `Appointment.approve` unconditionally sets status approved
and records the actor and timestamp from any prior status; a second
approve call through the doctor view succeeds (no rejection), leaving the
status approved and overwriting the approver; only the admin bulk action
restricts approval to pending appointments. -/
theorem approve_unconditional_from_any_status
    (a : Appointment) (u₁ u₂ now₁ now₂ : Nat) :
    (a.approve u₁ none none now₁).status = .approved ∧
    (a.approve u₁ none none now₁).approvedBy = some u₁ ∧
    approve_appointment (a.approve u₁ none none now₁) u₂ none none now₂ =
        Except.ok ((a.approve u₁ none none now₁).approve u₂ none none now₂) ∧
    ((a.approve u₁ none none now₁).approve u₂ none none now₂).status
        = .approved ∧
    ((a.approve u₁ none none now₁).approve u₂ none none now₂).approvedBy
        = some u₂ ∧
    approve_appointments [a] u₁ now₁ =
        [if a.status = .pending then a.approve u₁ none none now₁ else a] :=
  ⟨rfl, rfl, rfl, rfl, rfl, rfl⟩

/-- C2: approving a pending update request with `apply_changes` writes
`new_value` onto exactly the named profile field; every other updatable
field and the representative non-updatable fields are unchanged, and the
request moves to approved. -/
theorem approve_update_request_applies_exactly_named_field
    (r : RecordUpdateRequest) (p : StudentProfile) (user now : Nat)
    (_h : r.status = .pending) :
    (r.approve user true p now).2.getField r.field_name = r.new_value ∧
    (∀ g : ProfileField, g ≠ r.field_name →
        (r.approve user true p now).2.getField g = p.getField g) ∧
    (r.approve user true p now).2.student_id = p.student_id ∧
    (r.approve user true p now).2.program = p.program ∧
    (r.approve user true p now).2.year_level = p.year_level ∧
    (r.approve user true p now).2.blood_type = p.blood_type ∧
    (r.approve user true p now).1.status = .approved := by
  refine ⟨?_, ?_, ?_, ?_, ?_, ?_, rfl⟩
  · exact getField_setField_same p r.field_name r.new_value
  · intro g hg
    exact getField_setField_other p r.field_name g r.new_value hg
  all_goals
    simp only [RecordUpdateRequest.approve, if_true]
    cases r.field_name <;> rfl

/-- C2 witness: approving the concrete pending request `req0`
(contact_number → "+639171234567") updates exactly that field of
`profile0`. -/
theorem approve_update_request_applies_exactly_named_field_witness :
    req0.status = .pending ∧
    ((req0.approve 2 true profile0 2000).2.getField req0.field_name
        = req0.new_value ∧
      (∀ g : ProfileField, g ≠ req0.field_name →
          (req0.approve 2 true profile0 2000).2.getField g
            = profile0.getField g) ∧
      (req0.approve 2 true profile0 2000).2.student_id
          = profile0.student_id ∧
      (req0.approve 2 true profile0 2000).2.program = profile0.program ∧
      (req0.approve 2 true profile0 2000).2.year_level
          = profile0.year_level ∧
      (req0.approve 2 true profile0 2000).2.blood_type
          = profile0.blood_type ∧
      (req0.approve 2 true profile0 2000).1.status = .approved) :=
  ⟨rfl,
   approve_update_request_applies_exactly_named_field req0 profile0 2 2000
     rfl⟩

/-- C6 counterexample: three consecutive failed sends do not leave one
EmailLog with retry_count 3 and can_retry() false — each attempt creates a
fresh log, so all three logs end with retry_count 1 and can_retry()
true. -/
theorem email_retry_count_after_three_failures_cex :
    threeFailedSends.2.2.length = 3 ∧
    threeFailedSends.2.2.map (fun l => l.retry_count) = [1, 1, 1] ∧
    threeFailedSends.2.2.map (fun l => l.can_retry) = [true, true, true] ∧
    threeFailedSends.2.2.all (fun l => decide (l.retry_count ≠ 3)) = true := by
  decide

/-- C6 amended: every send attempt creates a fresh EmailLog with
retry_count 0 and max_retries 3; a failed attempt marks that new log
failed, records the error message, and increments its retry_count from 0
to 1, leaving every earlier log untouched, so no log ever exceeds
retry_count 1 and each failed log still reports can_retry() true. -/
theorem send_failure_creates_fresh_failed_log
    (n : Notification) (logs : List EmailLog) (e : String) (now : Nat) :
    send_notification_email n logs (some e) now =
      (false, n,
        logs ++
          [{ recipient_email := n.recipient_email
             subject := n.title
             body := n.message
             status := .failed
             error_message := some e
             sent_at := none
             retry_count := 1
             max_retries := 3 }]) ∧
    EmailLog.can_retry
        { recipient_email := n.recipient_email
          subject := n.title
          body := n.message
          status := .failed
          error_message := some e
          sent_at := none
          retry_count := 1
          max_retries := 3 } = true :=
  ⟨rfl, rfl⟩

theorem keyMatch_update (ptype : String) (pstart pend : Nat)
    (d : StatsData) (s : ConsultationStatistic) :
    consultationKeyMatch ptype pstart
        { s with period_end := pend, data := d }
      = consultationKeyMatch ptype pstart s := rfl

theorem countP_uocTable (table : List ConsultationStatistic)
    (ptype : String) (pstart pend : Nat) (d : StatsData) :
    ((consultationUpdateOrCreate table ptype pstart pend d).2.2).countP
        (consultationKeyMatch ptype pstart)
      = if table.any (consultationKeyMatch ptype pstart) then
          table.countP (consultationKeyMatch ptype pstart)
        else table.countP (consultationKeyMatch ptype pstart) + 1 := by
  by_cases hany : table.any (consultationKeyMatch ptype pstart)
  · simp only [consultationUpdateOrCreate, if_pos hany]
    rw [List.countP_map]
    apply List.countP_congr
    intro s _
    by_cases hk : consultationKeyMatch ptype pstart s
    · simp [Function.comp, hk, keyMatch_update]
    · simp [Function.comp, hk]
  · simp only [consultationUpdateOrCreate, if_neg hany]
    rw [List.countP_append]
    simp [consultationKeyMatch]

theorem uoc_key_rows_updated (table : List ConsultationStatistic)
    (ptype : String) (pstart pend : Nat) (d : StatsData) :
    ∀ s ∈ (consultationUpdateOrCreate table ptype pstart pend d).2.2,
      consultationKeyMatch ptype pstart s = true →
      s.period_end = pend ∧ s.data = d := by
  intro s hs hk
  by_cases hany : table.any (consultationKeyMatch ptype pstart)
  · simp only [consultationUpdateOrCreate, if_pos hany] at hs
    rcases List.mem_map.mp hs with ⟨t, ht, rfl⟩
    by_cases hkt : consultationKeyMatch ptype pstart t
    · rw [if_pos hkt]
      exact ⟨rfl, rfl⟩
    · rw [if_neg hkt] at hk
      exact absurd hk (by simp [hkt])
  · simp only [consultationUpdateOrCreate, if_neg hany] at hs
    rcases List.mem_append.mp hs with h1 | h2
    · exact absurd (List.any_eq_true.mpr ⟨s, h1, hk⟩) hany
    · rcases List.mem_singleton.mp h2 with rfl
      exact ⟨rfl, rfl⟩

theorem countP_uocTable_one (table : List ConsultationStatistic)
    (ptype : String) (pstart pend : Nat) (d : StatsData)
    (h : table.countP (consultationKeyMatch ptype pstart) ≤ 1) :
    ((consultationUpdateOrCreate table ptype pstart pend d).2.2).countP
        (consultationKeyMatch ptype pstart) = 1 := by
  rw [countP_uocTable]
  by_cases hany : table.any (consultationKeyMatch ptype pstart)
  · rw [if_pos hany]
    rcases List.any_eq_true.mp hany with ⟨x, hx, hkx⟩
    have hpos : 0 < table.countP (consultationKeyMatch ptype pstart) :=
      List.countP_pos_iff.mpr ⟨x, hx, hkx⟩
    omega
  · rw [if_neg hany]
    have hz : table.countP (consultationKeyMatch ptype pstart) = 0 := by
      rw [List.countP_eq_zero]
      intro a ha hka
      exact hany (List.any_eq_true.mpr ⟨a, ha, hka⟩)
    omega

/-- C8: running `generate_consultation_statistics` twice for the same
`(period_type, period_start)` key leaves exactly one row for that key in
the table (update-or-create), and that row carries the statistics and
period end of the second run. -/
theorem generate_consultation_statistics_upsert
    (ptype : String) (pstart pend₁ pend₂ : Nat)
    (ctxa ctxb : AnalyticsCtx) (table : List ConsultationStatistic)
    (h : table.countP (consultationKeyMatch ptype pstart) ≤ 1) :
    ((generate_consultation_statistics ptype pstart pend₂ ctxb
        (generate_consultation_statistics ptype pstart pend₁ ctxa
          table).2).2).countP (consultationKeyMatch ptype pstart) = 1 ∧
    ∀ s ∈ (generate_consultation_statistics ptype pstart pend₂ ctxb
        (generate_consultation_statistics ptype pstart pend₁ ctxa
          table).2).2,
      consultationKeyMatch ptype pstart s = true →
      s.period_end = pend₂ ∧
      s.data = get_consultation_statistics pstart pend₂ ctxb := by
  have h1 :
      ((generate_consultation_statistics ptype pstart pend₁ ctxa
          table).2).countP (consultationKeyMatch ptype pstart) = 1 :=
    countP_uocTable_one table ptype pstart pend₁
      (get_consultation_statistics pstart pend₁ ctxa) h
  constructor
  · exact countP_uocTable_one _ ptype pstart pend₂
      (get_consultation_statistics pstart pend₂ ctxb) (le_of_eq h1)
  · exact uoc_key_rows_updated _ ptype pstart pend₂
      (get_consultation_statistics pstart pend₂ ctxb)

/-- C8 witness: two runs for the key ("monthly", 0) on the sample
contexts leave exactly one row, holding the second run's tallies. -/
theorem generate_consultation_statistics_upsert_witness :
    ([] : List ConsultationStatistic).countP
        (consultationKeyMatch "monthly" 0) ≤ 1 ∧
    (((generate_consultation_statistics "monthly" 0 10 ctx2
        (generate_consultation_statistics "monthly" 0 10 ctx1
          []).2).2).countP (consultationKeyMatch "monthly" 0) = 1 ∧
      ∀ s ∈ (generate_consultation_statistics "monthly" 0 10 ctx2
          (generate_consultation_statistics "monthly" 0 10 ctx1
            []).2).2,
        consultationKeyMatch "monthly" 0 s = true →
        s.period_end = 10 ∧
        s.data = get_consultation_statistics 0 10 ctx2) :=
  ⟨by decide,
   generate_consultation_statistics_upsert "monthly" 0 10 10 ctx1 ctx2 []
     (by decide)⟩

theorem generateUniqueNumber_spec (pfx : String) (year : Nat)
    (existing : List String) (seeds : List (List Nat)) (t : String)
    (h : generateUniqueNumber pfx year existing seeds = some t) :
    t ∉ existing ∧ ∃ s ∈ seeds, t = numberCandidate pfx year s := by
  induction seeds with
  | nil => simp [generateUniqueNumber] at h
  | cons s rest ih =>
      simp only [generateUniqueNumber] at h
      by_cases hm : numberCandidate pfx year s ∈ existing
      · rw [if_pos hm] at h
        rcases ih h with ⟨h1, s', hs', ht⟩
        exact ⟨h1, s', List.mem_cons_of_mem _ hs', ht⟩
      · rw [if_neg hm] at h
        cases h
        exact ⟨hm, s, List.mem_cons_self _ _, rfl⟩

theorem alphabetUD_upperAlnum : ∀ c ∈ alphabetUD, isUpperAlnum c = true := by
  decide

theorem randomChoices_length (s : List Nat) :
    (randomChoices s).length = s.length := by
  simp [randomChoices, String.length]

theorem randomChoices_chars (s : List Nat) :
    (randomChoices s).toList.all isUpperAlnum = true := by
  rw [List.all_eq_true]
  intro c hc
  have hc' : c ∈ (s.map (fun n => alphabetUD.getD (n % 36) 'A')) := hc
  rcases List.mem_map.mp hc' with ⟨n, _, rfl⟩
  have h36 : n % 36 < alphabetUD.length := Nat.mod_lt _ (by decide)
  have hmem : alphabetUD.getD (n % 36) 'A' ∈ alphabetUD := by
    rw [List.getD_eq_getElem alphabetUD 'A' h36]
    exact List.getElem_mem h36
  exact alphabetUD_upperAlnum _ hmem

theorem generateUniqueNumber_full (pfx : String) (year k : Nat)
    (existing : List String) (seeds : List (List Nat)) (t : String)
    (h : generateUniqueNumber pfx year existing seeds = some t)
    (hk : ∀ s ∈ seeds, s.length = k) :
    t ∉ existing ∧ numberFormat pfx year k t ∧
      (existing.Nodup → (t :: existing).Nodup) := by
  obtain ⟨hnot, s, hs, rfl⟩ :=
    generateUniqueNumber_spec pfx year existing seeds t h
  refine ⟨hnot, ⟨randomChoices s, rfl, ?_, randomChoices_chars s⟩,
    fun hnd => List.nodup_cons.mpr ⟨hnot, hnd⟩⟩
  rw [randomChoices_length]
  exact hk s hs

/-- C9: each of the three number generators returns a value absent from
the persisted set (retrying on collision, so appending it preserves
uniqueness of the whole set), formatted `PREFIX-YYYY-` followed by 6
(tickets, prescriptions) or 8 (certificates) uppercase-alphanumeric
characters. -/
theorem number_generation_unique_and_formatted
    (year : Nat) (existing : List String) (seeds : List (List Nat))
    (t : String) :
    (Appointment.generate_ticket_number year existing seeds = some t →
      (∀ s ∈ seeds, s.length = 6) →
      t ∉ existing ∧ numberFormat "APT" year 6 t ∧
        (existing.Nodup → (t :: existing).Nodup)) ∧
    (generate_certificate_number year existing seeds = some t →
      (∀ s ∈ seeds, s.length = 8) →
      t ∉ existing ∧ numberFormat "CERT" year 8 t ∧
        (existing.Nodup → (t :: existing).Nodup)) ∧
    (generate_prescription_number year existing seeds = some t →
      (∀ s ∈ seeds, s.length = 6) →
      t ∉ existing ∧ numberFormat "RX" year 6 t ∧
        (existing.Nodup → (t :: existing).Nodup)) :=
  ⟨fun h hk => generateUniqueNumber_full "APT" year 6 existing seeds t h hk,
   fun h hk => generateUniqueNumber_full "CERT" year 8 existing seeds t h hk,
   fun h hk => generateUniqueNumber_full "RX" year 6 existing seeds t h hk⟩

/-- C9 witness: concrete runs of the three generators, including a
collision retry for the ticket generator. -/
theorem number_generation_unique_and_formatted_witness :
    (Appointment.generate_ticket_number 2025 ["APT-2025-ABCDEF"]
        [[0, 1, 2, 3, 4, 5], [6, 7, 8, 9, 10, 11]]
        = some "APT-2025-GHIJKL" ∧
      ("APT-2025-GHIJKL" ∉ ["APT-2025-ABCDEF"] ∧
        numberFormat "APT" 2025 6 "APT-2025-GHIJKL" ∧
        (["APT-2025-ABCDEF"].Nodup →
          ("APT-2025-GHIJKL" :: ["APT-2025-ABCDEF"]).Nodup))) ∧
    (generate_certificate_number 2025 []
        [[0, 1, 2, 3, 4, 5, 6, 7]] = some "CERT-2025-ABCDEFGH" ∧
      ("CERT-2025-ABCDEFGH" ∉ ([] : List String) ∧
        numberFormat "CERT" 2025 8 "CERT-2025-ABCDEFGH" ∧
        (([] : List String).Nodup →
          ("CERT-2025-ABCDEFGH" :: ([] : List String)).Nodup))) ∧
    (generate_prescription_number 2025 []
        [[35, 34, 33, 32, 31, 30]] = some "RX-2025-987654" ∧
      ("RX-2025-987654" ∉ ([] : List String) ∧
        numberFormat "RX" 2025 6 "RX-2025-987654" ∧
        (([] : List String).Nodup →
          ("RX-2025-987654" :: ([] : List String)).Nodup))) :=
  ⟨⟨by decide,
    (number_generation_unique_and_formatted 2025 ["APT-2025-ABCDEF"]
        [[0, 1, 2, 3, 4, 5], [6, 7, 8, 9, 10, 11]] "APT-2025-GHIJKL").1
      (by decide) (by decide)⟩,
   ⟨by decide,
    (number_generation_unique_and_formatted 2025 []
        [[0, 1, 2, 3, 4, 5, 6, 7]] "CERT-2025-ABCDEFGH").2.1
      (by decide) (by decide)⟩,
   ⟨by decide,
    (number_generation_unique_and_formatted 2025 []
        [[35, 34, 33, 32, 31, 30]] "RX-2025-987654").2.2
      (by decide) (by decide)⟩⟩

theorem mem_insertByCountDesc (x z : String × Nat)
    (l : List (String × Nat)) :
    z ∈ insertByCountDesc x l ↔ z = x ∨ z ∈ l := by
  induction l with
  | nil => simp [insertByCountDesc]
  | cons y ys ih =>
      rw [insertByCountDesc]
      by_cases hlt : y.2 < x.2
      · rw [if_pos hlt]
        simp only [List.mem_cons]
      · rw [if_neg hlt]
        simp only [List.mem_cons, ih]
        tauto

theorem pairwise_insertByCountDesc (x : String × Nat)
    (l : List (String × Nat))
    (h : l.Pairwise (fun a b => b.2 ≤ a.2)) :
    (insertByCountDesc x l).Pairwise (fun a b => b.2 ≤ a.2) := by
  induction l with
  | nil => simp [insertByCountDesc]
  | cons y ys ih =>
      rw [insertByCountDesc]
      rcases List.pairwise_cons.mp h with ⟨hy, hys⟩
      by_cases hlt : y.2 < x.2
      · rw [if_pos hlt]
        refine List.pairwise_cons.mpr ⟨?_, h⟩
        intro z hz
        rcases List.mem_cons.mp hz with rfl | hz'
        · exact le_of_lt hlt
        · exact le_trans (hy z hz') (le_of_lt hlt)
      · rw [if_neg hlt]
        refine List.pairwise_cons.mpr ⟨?_, ih hys⟩
        intro z hz
        rcases (mem_insertByCountDesc x z ys).mp hz with rfl | hz'
        · exact Nat.le_of_not_lt hlt
        · exact hy z hz'

theorem pairwise_sortByCountDesc (groups : List (String × Nat)) :
    (sortByCountDesc groups).Pairwise (fun a b => b.2 ≤ a.2) := by
  induction groups with
  | nil => simp [sortByCountDesc]
  | cons g gs ih =>
      exact pairwise_insertByCountDesc g _ ih

theorem mem_sortByCountDesc (groups : List (String × Nat))
    (z : String × Nat) :
    z ∈ sortByCountDesc groups ↔ z ∈ groups := by
  induction groups with
  | nil => simp [sortByCountDesc]
  | cons g gs ih =>
      show z ∈ insertByCountDesc g (sortByCountDesc gs) ↔ _
      rw [mem_insertByCountDesc, ih]
      simp [List.mem_cons, eq_comm]

theorem mem_dedupFirst (l : List String) (d : String) :
    ∀ seen, d ∈ dedupFirst seen l → d ∈ l := by
  induction l with
  | nil => intro seen h; simp [dedupFirst] at h
  | cons x xs ih =>
      intro seen h
      rw [dedupFirst] at h
      by_cases hx : x ∈ seen
      · rw [if_pos hx] at h
        exact List.mem_cons_of_mem _ (ih seen h)
      · rw [if_neg hx] at h
        rcases List.mem_cons.mp h with rfl | h'
        · exact List.mem_cons_self _ _
        · exact List.mem_cons_of_mem _ (ih _ h')

/-- C7 amended: `get_top_morbidities` returns at most `limit` diagnoses
in descending count order; each returned diagnosis occurs among the
approved matching records with exactly the reported count; and each
percentage is the diagnosis's share of the total count of the returned
top-N groups — not of the window total of approved records. -/
theorem get_top_morbidities_top_share
    (recordType : String) (limit : Nat) (dateFrom dateTo : Option Nat)
    (records : List MedicalRecord) :
    (get_top_morbidities recordType limit dateFrom dateTo records).length
        ≤ limit ∧
    (get_top_morbidities recordType limit dateFrom dateTo
        records).Pairwise (fun a b => b.count ≤ a.count) ∧
    (∀ item ∈ get_top_morbidities recordType limit dateFrom dateTo records,
      item.diagnosis ∈
          (records.filter
            (morbidityMatch recordType dateFrom dateTo)).filterMap
            (fun r => r.diagnosis) ∧
      item.count =
        ((records.filter
            (morbidityMatch recordType dateFrom dateTo)).filterMap
            (fun r => r.diagnosis)).count item.diagnosis) ∧
    (∀ item ∈ get_top_morbidities recordType limit dateFrom dateTo records,
      item.percentage =
        round2
          (if 0 < ((get_top_morbidities recordType limit dateFrom dateTo
                records).map (fun i => i.count)).sum then
            (item.count : ℚ) /
                (((((get_top_morbidities recordType limit dateFrom dateTo
                  records).map (fun i => i.count)).sum : Nat)) : ℚ) * 100
          else 0)) := by
  have hsum :
      ((get_top_morbidities recordType limit dateFrom dateTo
          records).map (fun i => i.count)).sum =
        (((sortByCountDesc
            (((dedupFirst []
                ((records.filter
                  (morbidityMatch recordType dateFrom dateTo)).filterMap
                  (fun r => r.diagnosis)))).map
              (fun d =>
                (d,
                  ((records.filter
                    (morbidityMatch recordType dateFrom dateTo)).filterMap
                    (fun r => r.diagnosis)).count d)))).take limit).map
          (fun g => g.2)).sum := by
    simp only [get_top_morbidities, List.map_map]
    rfl
  refine ⟨?_, ?_, ?_, ?_⟩
  · simp only [get_top_morbidities, List.length_map]
    exact List.length_take_le _ _
  · simp only [get_top_morbidities]
    rw [List.pairwise_map]
    exact (pairwise_sortByCountDesc _).sublist (List.take_sublist _ _)
  · intro item hitem
    simp only [get_top_morbidities] at hitem
    rcases List.mem_map.mp hitem with ⟨g, hg, rfl⟩
    have hg' := (mem_sortByCountDesc _ g).mp (List.mem_of_mem_take hg)
    rcases List.mem_map.mp hg' with ⟨d, hd, rfl⟩
    exact ⟨mem_dedupFirst _ d [] hd, rfl⟩
  · intro item hitem
    simp only [get_top_morbidities] at hitem
    rcases List.mem_map.mp hitem with ⟨g, hg, rfl⟩
    rw [hsum]

/-- C7 counterexample: with Flu (3 cases), Cold (1) and Ache (1) approved
in the window and limit 2, the code reports Flu at 75.0 — its share of
the top-2 total (4) — whereas the claim's window total of approved
records (5) would give 60.0. -/
theorem morbidity_percentage_denominator_cex :
    get_top_morbidities "medical" 2 none none morbidityRecs =
      [⟨"Flu", 3, 75⟩, ⟨"Ache", 1, 25⟩] ∧
    spec_percentage_of_window_total "medical" none none morbidityRecs 3
        = 60 ∧
    (75 : ℚ) ≠ 60 := by
  refine ⟨?_, ?_, by norm_num⟩
  · simp +decide [get_top_morbidities, morbidityRecs, morbidityMatch,
      inWindow, dedupFirst, sortByCountDesc, insertByCountDesc, round2,
      List.count, List.countP, List.countP.go]
    norm_num [round_eq]
  · simp +decide [spec_percentage_of_window_total, morbidityRecs,
      morbidityMatch, inWindow, round2]
    norm_num [round_eq]

/-- C7 witness: the amended statement instantiated on the concrete
records, including the spec's own Flu/Cold example via the first two
conjuncts evaluated on the result. -/
theorem get_top_morbidities_top_share_witness :
    (get_top_morbidities "medical" 2 none none morbidityRecs).length
        ≤ 2 ∧
    (get_top_morbidities "medical" 2 none none
        morbidityRecs).Pairwise (fun a b => b.count ≤ a.count) ∧
    (∀ item ∈ get_top_morbidities "medical" 2 none none morbidityRecs,
      item.diagnosis ∈
          (morbidityRecs.filter
            (morbidityMatch "medical" none none)).filterMap
            (fun r => r.diagnosis) ∧
      item.count =
        ((morbidityRecs.filter
            (morbidityMatch "medical" none none)).filterMap
            (fun r => r.diagnosis)).count item.diagnosis) ∧
    (∀ item ∈ get_top_morbidities "medical" 2 none none morbidityRecs,
      item.percentage =
        round2
          (if 0 < ((get_top_morbidities "medical" 2 none none
                morbidityRecs).map (fun i => i.count)).sum then
            (item.count : ℚ) /
                (((((get_top_morbidities "medical" 2 none none
                  morbidityRecs).map (fun i => i.count)).sum : Nat)) : ℚ) * 100
          else 0)) :=
  get_top_morbidities_top_share "medical" 2 none none morbidityRecs

end TipMds
